import Mathlib

/-!
Verification of the shader-module reflection and specialization core of
`vulkano` (`src/vulkano/src/shader/mod.rs`).

The Rust data model is shallowly embedded: machine integers become `Nat`/`Int`
(no arithmetic overflow occurs in the modelled operations), `Vec` becomes
`List`, the hash maps and hash sets become functions into `Option`/`Bool`
(capturing their key-to-value semantics and content-based equality), and
fallible operations return `Except`/pairs with an error option. Panics
(assertions) are modelled by `Option`-valued results, `none` meaning a panic.
-/

set_option maxHeartbeats 1000000

/-- The descriptor type enumeration (`DescriptorType` from
`descriptor_set/layout.rs`, which only participates here through equality and
membership tests). Modelled from the spec: the spec names descriptor kinds
such as sampler, combined-image-sampler, storage image, uniform/storage
buffer (section 4.3). -/
inductive DescriptorType where
  | Sampler
  | CombinedImageSampler
  | SampledImage
  | StorageImage
  | UniformTexelBuffer
  | StorageTexelBuffer
  | UniformBuffer
  | StorageBuffer
  | UniformBufferDynamic
  | StorageBufferDynamic
  | InputAttachment
deriving DecidableEq, Repr

/-- Image formats (`Format` from `format/mod.rs`; only equality is used by the
code under verification). Modelled from the spec: the spec's examples name
`R8G8B8A8_UNORM` and `R16G16_SFLOAT` (section 8.5). -/
inductive Format where
  | R8G8B8A8Unorm
  | R16G16Sfloat
  | R32G32B32A32Sfloat
  | R8Unorm
deriving DecidableEq, Repr

/-- Base numeric types (`NumericType` from `format/mod.rs`; only equality is
used). Modelled from the spec: base scalar type of an image or interface
variable (sections 3 and 4.3). -/
inductive NumericType where
  | Float
  | Int
  | Uint
deriving DecidableEq, Repr

/-- Image view types (`ImageViewType` from `image/view.rs`; only equality is
used). Modelled from the spec: required view type of an image binding
(section 3). -/
inductive ImageViewType where
  | Dim1d
  | Dim2d
  | Dim3d
  | Cube
  | Dim1dArray
  | Dim2dArray
  | CubeArray
deriving DecidableEq, Repr

/-- `ShaderStages` is a `u32` bitmask; the merge code only combines such masks
with bitwise or, so a `Nat` carrying the bit pattern is a faithful model. -/
abbrev ShaderStages := Nat

/-- `DescriptorIdentifier` (shader/mod.rs): identifies one descriptor by
(set, binding, index). -/
structure DescriptorIdentifier where
  set : Nat
  binding : Nat
  index : Nat
deriving DecidableEq, Repr

/-- `DescriptorRequirements` (shader/mod.rs): requirements imposed on
resources bound to one descriptor. The `sampler_with_images` hash set is
modelled as its membership function. -/
structure DescriptorRequirements where
  memory_read : ShaderStages
  memory_write : ShaderStages
  sampler_compare : Bool
  sampler_no_unnormalized_coordinates : Bool
  sampler_no_ycbcr_conversion : Bool
  sampler_with_images : DescriptorIdentifier → Bool
  storage_image_atomic : Bool

/-- The `Default` instance of `DescriptorRequirements`: everything empty. -/
def DescriptorRequirements.default : DescriptorRequirements where
  memory_read := 0
  memory_write := 0
  sampler_compare := false
  sampler_no_unnormalized_coordinates := false
  sampler_no_ycbcr_conversion := false
  sampler_with_images := fun _ => false
  storage_image_atomic := false

/-- `DescriptorRequirements::merge` (shader/mod.rs, lines 1067-1089):
bitwise-or of the stage bitsets and boolean flags, union of the
sampler-with-images set. -/
def DescriptorRequirements.merge (self other : DescriptorRequirements) :
    DescriptorRequirements where
  memory_read := self.memory_read ||| other.memory_read
  memory_write := self.memory_write ||| other.memory_write
  sampler_compare := self.sampler_compare || other.sampler_compare
  sampler_no_unnormalized_coordinates :=
    self.sampler_no_unnormalized_coordinates ||
      other.sampler_no_unnormalized_coordinates
  sampler_no_ycbcr_conversion :=
    self.sampler_no_ycbcr_conversion || other.sampler_no_ycbcr_conversion
  sampler_with_images := fun x =>
    self.sampler_with_images x || other.sampler_with_images x
  storage_image_atomic := self.storage_image_atomic || other.storage_image_atomic

/-- `DescriptorBindingRequirements` (shader/mod.rs): the requirements a shader
imposes on one (set, binding) slot. The `descriptors` hash map (keyed by
`Option<u32>`, `None` meaning a dynamically computed index) is modelled as its
key-to-value function. -/
structure DescriptorBindingRequirements where
  descriptor_types : List DescriptorType
  descriptor_count : Option Nat
  image_format : Option Format
  image_multisampled : Bool
  image_scalar_type : Option NumericType
  image_view_type : Option ImageViewType
  stages : ShaderStages
  descriptors : Option Nat → Option DescriptorRequirements

/-- The `Default` instance of `DescriptorBindingRequirements`. -/
def DescriptorBindingRequirements.default : DescriptorBindingRequirements where
  descriptor_types := []
  descriptor_count := none
  image_format := none
  image_multisampled := false
  image_scalar_type := none
  image_view_type := none
  stages := 0
  descriptors := fun _ => none

/-- The errors produced by `DescriptorBindingRequirements::merge`, one per
early-return `ValidationError` in the source. -/
inductive MergeError where
  | descriptorTypesNotOverlapping
  | formatMismatch
  | scalarTypeMismatch
  | viewTypeMismatch
  | multisampledMismatch
deriving DecidableEq, Repr

/-- Rust's `Option::max` on `Option<u32>` (`None` is the least element). -/
def optMax : Option Nat → Option Nat → Option Nat
  | none, b => b
  | some x, none => some x
  | some x, some y => some (max x y)

/-- Rust's `Option::or`: keeps `self` when it is `some`. -/
def optOr {α : Type} : Option α → Option α → Option α
  | some x, _ => some x
  | none, b => b

/-- The `if let (Some(first), Some(second)) = ... if first != second` pattern
used by the three image-property checks of the merge. -/
def conflictingOptions {α : Type} [DecidableEq α] : Option α → Option α → Bool
  | some x, some y => decide (x ≠ y)
  | _, _ => false

/-- Merging of one entry of the `descriptors` map: the Rust loop inserts a
clone of `other`'s entry when the key is vacant and merges into the occupied
entry otherwise; keys present only in `self` are left alone. -/
def mergeDescriptorsEntry :
    Option DescriptorRequirements → Option DescriptorRequirements →
      Option DescriptorRequirements
  | none, o => o
  | some d, none => some d
  | some d, some o => some (d.merge o)

/-- `DescriptorBindingRequirements::merge` (shader/mod.rs, lines 983-1064).
The Rust method mutates `self` and returns a `Result<(), _>`; here the final
state of `self` is returned together with the error, so that the
no-partial-merge behaviour (all five checks precede every mutation) is
visible: every error branch returns `self` unchanged. -/
def DescriptorBindingRequirements.merge
    (self other : DescriptorBindingRequirements) :
    DescriptorBindingRequirements × Option MergeError :=
  if ¬ self.descriptor_types.any (fun ty => other.descriptor_types.contains ty) then
    (self, some .descriptorTypesNotOverlapping)
  else if conflictingOptions self.image_format other.image_format then
    (self, some .formatMismatch)
  else if conflictingOptions self.image_scalar_type other.image_scalar_type then
    (self, some .scalarTypeMismatch)
  else if conflictingOptions self.image_view_type other.image_view_type then
    (self, some .viewTypeMismatch)
  else if self.image_multisampled ≠ other.image_multisampled then
    (self, some .multisampledMismatch)
  else
    ({ descriptor_types :=
         self.descriptor_types.filter (fun ty => other.descriptor_types.contains ty)
       descriptor_count := optMax self.descriptor_count other.descriptor_count
       image_format := optOr self.image_format other.image_format
       image_multisampled := self.image_multisampled
       image_scalar_type := optOr self.image_scalar_type other.image_scalar_type
       image_view_type := optOr self.image_view_type other.image_view_type
       stages := self.stages ||| other.stages
       descriptors := fun k =>
         mergeDescriptorsEntry (self.descriptors k) (other.descriptors k) },
     none)

/-- `ShaderInterfaceEntryType` (shader/mod.rs): the type descriptor of an
interface variable. -/
structure ShaderInterfaceEntryType where
  base_type : NumericType
  num_components : Nat
  num_elements : Nat
  is_64bit : Bool
deriving DecidableEq, Repr

/-- `ShaderInterfaceEntryType::num_locations` (shader/mod.rs, lines
1223-1228): `assert!(!self.is_64bit)` then `self.num_elements`. The assertion
failure (panic) is modelled as `none`. -/
def ShaderInterfaceEntryType.num_locations
    (self : ShaderInterfaceEntryType) : Option Nat :=
  if self.is_64bit then none else some self.num_elements

/-- `ShaderInterfaceEntry` (shader/mod.rs): one interface variable. -/
structure ShaderInterfaceEntry where
  location : Nat
  index : Nat
  component : Nat
  name : Option String
  ty : ShaderInterfaceEntryType
deriving DecidableEq, Repr

/-- `ShaderInterface` (shader/mod.rs): a collection of interface entries. -/
structure ShaderInterface where
  elements : List ShaderInterfaceEntry
deriving DecidableEq, Repr

/-- The errors produced by `ShaderInterface::matches`, one per early-return
`ValidationError` in the source, carrying the offending location where the
source's error message reports one. -/
inductive MatchError where
  | elementCountMismatch
  | missingElement (loc : Nat)
  | typeMismatch (loc : Nat)
deriving DecidableEq, Repr

/-- The `other.elements().iter().find(...)` step of `ShaderInterface::matches`
(shader/mod.rs, lines 1141-1145): the first element whose location range
covers `loc`. The scan evaluates `num_locations` on each element it examines,
so a 64-bit element reached by the scan panics (`none`); `some none` means the
scan completed without a match. -/
def findCoveringElement (loc : Nat) :
    List ShaderInterfaceEntry → Option (Option ShaderInterfaceEntry)
  | [] => some none
  | e :: rest =>
    match e.ty.num_locations with
    | none => none
    | some n =>
      if e.location ≤ loc ∧ loc < e.location + n then some (some e)
      else findCoveringElement loc rest

/-- One iteration of the inner `for loc in location_range` loop of
`ShaderInterface::matches`: find the covering element of `other` and compare
types. -/
def checkSlot (other : List ShaderInterfaceEntry)
    (aty : ShaderInterfaceEntryType) (loc : Nat) :
    Option (Except MatchError Unit) :=
  match findCoveringElement loc other with
  | none => none
  | some none => some (.error (.missingElement loc))
  | some (some b) =>
    if aty = b.ty then some (.ok ()) else some (.error (.typeMismatch loc))

/-- The inner `for loc in location_range` loop of `ShaderInterface::matches`,
iterating `count` locations starting at `loc`; the first error is returned. -/
def checkSlots (other : List ShaderInterfaceEntry)
    (aty : ShaderInterfaceEntryType) : Nat → Nat → Option (Except MatchError Unit)
  | _, 0 => some (.ok ())
  | loc, Nat.succ k =>
    match checkSlot other aty loc with
    | none => none
    | some (.error e) => some (.error e)
    | some (.ok ()) => checkSlots other aty (loc + 1) k

/-- The body of the outer loop of `ShaderInterface::matches` for one upstream
element: compute its location range (`num_locations` may panic) and check
every covered slot. -/
def checkElement (other : List ShaderInterfaceEntry)
    (a : ShaderInterfaceEntry) : Option (Except MatchError Unit) :=
  match a.ty.num_locations with
  | none => none
  | some n => checkSlots other a.ty a.location n

/-- The outer `for a in self.elements()` loop of `ShaderInterface::matches`;
the first error is returned. -/
def checkElements (other : List ShaderInterfaceEntry) :
    List ShaderInterfaceEntry → Option (Except MatchError Unit)
  | [] => some (.ok ())
  | a :: rest =>
    match checkElement other a with
    | none => none
    | some (.error e) => some (.error e)
    | some (.ok ()) => checkElements other rest

/-- `ShaderInterface::matches` (shader/mod.rs, lines 1130-1183). The result is
`none` when the Rust code panics (the `num_locations` assertion), otherwise
`some` of the `Result`. -/
def ShaderInterface.matches (self other : ShaderInterface) :
    Option (Except MatchError Unit) :=
  if self.elements.length ≠ other.elements.length then
    some (.error .elementCountMismatch)
  else checkElements other.elements self.elements

/-- Whether entry `b` occupies location slot `loc`, with the slot span taken
from `num_elements` (the value `num_locations` returns for non-64-bit types);
this is the spec's notion of a location slot occupied by an element. -/
def occupiesSlot (b : ShaderInterfaceEntry) (loc : Nat) : Bool :=
  decide (b.location ≤ loc) && decide (loc < b.location + b.ty.num_elements)

/-- Alias for the builtin booleans, needed below because the constructor name
`Bool` shadows the builtin inside the inductive declaration. -/
abbrev HostBool := Bool

/-- `SpecializationConstant` (shader/mod.rs, lines 570-583): the value of a
specialization constant. The half/float/double payloads are carried as their
bit patterns (the code under verification never computes with them; it only
compares variants via `eq_type` and treats values as literal bytes). -/
inductive SpecializationConstant where
  | Bool (value : HostBool)
  | U8 (value : Nat)
  | U16 (value : Nat)
  | U32 (value : Nat)
  | U64 (value : Nat)
  | I8 (value : Int)
  | I16 (value : Int)
  | I32 (value : Int)
  | I64 (value : Int)
  | F16 (bits : Nat)
  | F32 (bits : Nat)
  | F64 (bits : Nat)
deriving DecidableEq, Repr

/-- The Rust `std::mem::discriminant` of a `SpecializationConstant`, as an
index of its variant. -/
def SpecializationConstant.variantIndex : SpecializationConstant → Nat
  | .Bool _ => 0
  | .U8 _ => 1
  | .U16 _ => 2
  | .U32 _ => 3
  | .U64 _ => 4
  | .I8 _ => 5
  | .I16 _ => 6
  | .I32 _ => 7
  | .I64 _ => 8
  | .F16 _ => 9
  | .F32 _ => 10
  | .F64 _ => 11

/-- `SpecializationConstant::eq_type` (shader/mod.rs, lines 606-611):
`discriminant(self) == discriminant(other)`. -/
def SpecializationConstant.eq_type (self other : SpecializationConstant) : HostBool :=
  self.variantIndex == other.variantIndex

/-- `ExecutionModel` (shader/spirv.rs; the full variant list is visible in the
`From<ExecutionModel> for ShaderStage` impl of shader/mod.rs, lines
1332-1355). -/
inductive ExecutionModel where
  | Vertex
  | TessellationControl
  | TessellationEvaluation
  | Geometry
  | Fragment
  | GLCompute
  | Kernel
  | TaskNV
  | TaskEXT
  | MeshNV
  | MeshEXT
  | RayGenerationKHR
  | IntersectionKHR
  | AnyHitKHR
  | ClosestHitKHR
  | MissKHR
  | CallableKHR
deriving DecidableEq, Repr

/-- `PushConstantRange` (pipeline/layout.rs, not under src/). Modelled from
the spec: a push-constant byte range tagged with a stage bitset
(sections 3 and 4.3). -/
structure PushConstantRange where
  stages : ShaderStages
  offset : Nat
  size : Nat
deriving DecidableEq, Repr

/-- `EntryPointInfo` (shader/mod.rs, lines 862-871): the reflected information
of one entry point. The `descriptor_binding_requirements` hash map, keyed by
(set, binding), is modelled as its key-to-value function. -/
structure EntryPointInfo where
  name : String
  execution_model : ExecutionModel
  descriptor_binding_requirements :
    Nat × Nat → Option DescriptorBindingRequirements
  push_constant_requirements : Option PushConstantRange
  input_interface : ShaderInterface
  output_interface : ShaderInterface

/-- The parsed SPIR-V instruction graph (`Spirv` from shader/spirv.rs, not
under src/). Modelled from the spec: the graph determines the module's
specialization constants (constant_id to current value, section 4.3) and its
reflected entry points (section 4.3, a pure function of the graph, carried
here directly as data so that reflection is a lookup). -/
structure Spirv where
  constants : List (Nat × SpecializationConstant)
  entry_point_infos : List (Nat × EntryPointInfo)

/-- `Spirv::apply_specialization` (shader/spirv.rs, not under src/). Modelled
from the spec: for every constant definition whose constant_id matches an
entry in the overrides, the literal value is replaced by the override
(section 4.2); instruction count and ids are unchanged. -/
def Spirv.apply_specialization (self : Spirv)
    (info : List (Nat × SpecializationConstant)) : Spirv :=
  { self with
    constants := self.constants.map fun c =>
      match List.lookup c.1 info with
      | some v => (c.1, v)
      | none => c }

/-- `reflect::entry_points` (shader/reflect.rs, not under src/). Modelled from
the spec: reflection is a pure function of the instruction graph
(section 4.3); the graph model carries its reflected entry points, so
reflection reads them off. -/
def reflectEntryPoints (spirv : Spirv) : List (Nat × EntryPointInfo) :=
  spirv.entry_point_infos

/-- `ShaderModule` (shader/mod.rs, lines 170-177), restricted to the fields
the verified operations read: the parsed graph and the reflected
specialization-constant table (constant_id to default value, modelled as an
association list). The device handle and id are external-collaborator
concerns. -/
structure ShaderModule where
  spirv : Spirv
  specialization_constants : List (Nat × SpecializationConstant)

/-- `SpecializedShaderModule` (shader/mod.rs, lines 699-704). -/
structure SpecializedShaderModule where
  base_module : ShaderModule
  specialization_info : List (Nat × SpecializationConstant)
  spirv : Option Spirv
  entry_point_infos : List (Nat × EntryPointInfo)

/-- `EntryPoint` (shader/mod.rs, lines 877-881). -/
structure EntryPoint where
  module : SpecializedShaderModule
  id : Nat
  info_index : Nat

/-- The loop body of `SpecializedShaderModule::validate_new` applied to the
entries of `specialization_info` in order: an entry whose constant_id has a
default in the module's table must have the same type as that default
(`eq_type`); the first offending constant_id is reported. -/
def validateSpecializationInfo
    (defaults : List (Nat × SpecializationConstant)) :
    List (Nat × SpecializationConstant) → Except Nat Unit
  | [] => .ok ()
  | (constant_id, provided_value) :: rest =>
    match List.lookup constant_id defaults with
    | some default_value =>
      if provided_value.eq_type default_value then
        validateSpecializationInfo defaults rest
      else .error constant_id
    | none => validateSpecializationInfo defaults rest

/-- `SpecializedShaderModule::validate_new` (shader/mod.rs, lines 718-745). -/
def SpecializedShaderModule.validate_new (base_module : ShaderModule)
    (specialization_info : List (Nat × SpecializationConstant)) :
    Except Nat Unit :=
  validateSpecializationInfo base_module.specialization_constants
    specialization_info

/-- `SpecializedShaderModule::new_unchecked` (shader/mod.rs, lines 748-766):
the graph is cloned and specialized exactly when the base module's
specialization-constant table is non-empty, and entry points are reflected
from the specialized graph when present, the base graph otherwise. -/
def SpecializedShaderModule.new_unchecked (base_module : ShaderModule)
    (specialization_info : List (Nat × SpecializationConstant)) :
    SpecializedShaderModule :=
  let spirv :=
    if base_module.specialization_constants.isEmpty then none
    else some (base_module.spirv.apply_specialization specialization_info)
  { base_module := base_module
    specialization_info := specialization_info
    spirv := spirv
    entry_point_infos := reflectEntryPoints (spirv.getD base_module.spirv) }

/-- `SpecializedShaderModule::new` (shader/mod.rs, lines 709-716): validate,
then construct. -/
def SpecializedShaderModule.new (base_module : ShaderModule)
    (specialization_info : List (Nat × SpecializationConstant)) :
    Except Nat SpecializedShaderModule :=
  match SpecializedShaderModule.validate_new base_module specialization_info with
  | .error e => .error e
  | .ok () =>
    .ok (SpecializedShaderModule.new_unchecked base_module specialization_info)

/-- The `SpecializedShaderModule::spirv` accessor (shader/mod.rs, lines
781-784): `self.spirv.as_ref().unwrap_or(&self.base_module.spirv)`. -/
def SpecializedShaderModule.getSpirv (self : SpecializedShaderModule) : Spirv :=
  self.spirv.getD self.base_module.spirv

/-- `SpecializedShaderModule::single_entry_point_filter` (shader/mod.rs, lines
807-825): the cached entry-point list is filtered with its indices; the
result is the entry point at the first matching index, but only when no
second index matches — i.e. when the filtered list is a singleton. -/
def SpecializedShaderModule.single_entry_point_filter
    (self : SpecializedShaderModule) (filter : EntryPointInfo → Bool) :
    Option EntryPoint :=
  match (self.entry_point_infos.enum.filter fun x => filter x.2.2) with
  | [(info_index, (eid, _))] =>
    some { module := self, id := eid, info_index := info_index }
  | _ => none

/-- `SpecializedShaderModule::entry_point` (shader/mod.rs, lines 786-792). -/
def SpecializedShaderModule.entry_point (self : SpecializedShaderModule)
    (name : String) : Option EntryPoint :=
  self.single_entry_point_filter fun info => info.name == name

/-- `SpecializedShaderModule::entry_point_with_execution` (shader/mod.rs,
lines 797-805). -/
def SpecializedShaderModule.entry_point_with_execution
    (self : SpecializedShaderModule) (name : String)
    (execution : ExecutionModel) : Option EntryPoint :=
  self.single_entry_point_filter fun info =>
    info.name == name && info.execution_model == execution

/-- `SpecializedShaderModule::single_entry_point` (shader/mod.rs, lines
830-832). -/
def SpecializedShaderModule.single_entry_point
    (self : SpecializedShaderModule) : Option EntryPoint :=
  self.single_entry_point_filter fun _ => true

/-- `SpecializedShaderModule::single_entry_point_with_execution`
(shader/mod.rs, lines 838-843). -/
def SpecializedShaderModule.single_entry_point_with_execution
    (self : SpecializedShaderModule) (execution : ExecutionModel) :
    Option EntryPoint :=
  self.single_entry_point_filter fun info => info.execution_model == execution

/-! ## Concrete example values used to instantiate the theorems -/

/-- A binding requirement allowing only a uniform buffer. -/
def dbrU : DescriptorBindingRequirements :=
  { DescriptorBindingRequirements.default with
    descriptor_types := [.UniformBuffer] }

/-- A binding requirement allowing only a storage image. -/
def dbrS : DescriptorBindingRequirements :=
  { DescriptorBindingRequirements.default with
    descriptor_types := [.StorageImage] }

/-- A binding requirement listing uniform buffer then storage buffer. -/
def dbrAB : DescriptorBindingRequirements :=
  { DescriptorBindingRequirements.default with
    descriptor_types := [.UniformBuffer, .StorageBuffer] }

/-- The same allowed-type set as `dbrAB`, listed in the opposite order. -/
def dbrBA : DescriptorBindingRequirements :=
  { DescriptorBindingRequirements.default with
    descriptor_types := [.StorageBuffer, .UniformBuffer] }

/-- A base shader module declaring one specialization constant, constant_id 5
with default value `U32 3`. -/
def sm5 : ShaderModule :=
  { spirv := { constants := [(5, .U32 3)], entry_point_infos := [] }
    specialization_constants := [(5, .U32 3)] }

/-- A base shader module with no specialization constants. -/
def smEmpty : ShaderModule :=
  { spirv := { constants := [], entry_point_infos := [] }
    specialization_constants := [] }

/-- The reflected info of an entry point named `main` running as a vertex
shader, with no resources. -/
def epInfoMain : EntryPointInfo :=
  { name := "main"
    execution_model := .Vertex
    descriptor_binding_requirements := fun _ => none
    push_constant_requirements := none
    input_interface := ⟨[]⟩
    output_interface := ⟨[]⟩ }

/-- A specialized module whose cache holds exactly one entry point,
`epInfoMain` with id 1. -/
def ssmMain : SpecializedShaderModule :=
  { base_module := smEmpty
    specialization_info := []
    spirv := none
    entry_point_infos := [(1, epInfoMain)] }

/-- A `vec4 float32` interface type. -/
def tyV4 : ShaderInterfaceEntryType :=
  { base_type := .Float, num_components := 4, num_elements := 1,
    is_64bit := false }

/-- A 64-bit interface type (one `double`). -/
def tyD1 : ShaderInterfaceEntryType :=
  { base_type := .Float, num_components := 1, num_elements := 1,
    is_64bit := true }

/-- A named `vec4 float32` entry at location 0. -/
def entryV4 : ShaderInterfaceEntry :=
  { location := 0, index := 0, component := 0, name := some "pos", ty := tyV4 }

/-- The same entry as `entryV4` with the name erased. -/
def entryV4NoName : ShaderInterfaceEntry :=
  { location := 0, index := 0, component := 0, name := none, ty := tyV4 }

/-- A single-entry interface using the named entry. -/
def ifaceV4 : ShaderInterface := ⟨[entryV4]⟩

/-- A single-entry interface using the unnamed entry. -/
def ifaceV4NoName : ShaderInterface := ⟨[entryV4NoName]⟩

/-- Equality of interface entries up to the `name` field: the two entries
agree on location, index, component and type. -/
def eqExceptName (x y : ShaderInterfaceEntry) : Prop :=
  x.location = y.location ∧ x.index = y.index ∧ x.component = y.component ∧
    x.ty = y.ty

/-! ## Helper lemmas about the merge -/

theorem any_contains_iff (a b : List DescriptorType) :
    (a.any fun ty => b.contains ty) = true ↔ ∃ t, t ∈ a ∧ t ∈ b := by
  simp [List.any_eq_true, List.elem_eq_mem]

theorem conflictingOptions_true_iff {α : Type} [DecidableEq α] (x y : Option α) :
    conflictingOptions x y = true ↔ ∃ u v, x = some u ∧ y = some v ∧ u ≠ v := by
  cases x <;> cases y <;> simp [conflictingOptions]

/-- On any error, `self` is returned unchanged: all five checks precede every
mutation. -/
theorem merge_self_unchanged (a b : DescriptorBindingRequirements) :
    (a.merge b).2.isSome = true → (a.merge b).1 = a := by
  unfold DescriptorBindingRequirements.merge
  split_ifs <;> simp

/-- The error of the merge is present exactly when one of the five conflict
conditions holds. -/
theorem merge_isSome_iff (a b : DescriptorBindingRequirements) :
    (a.merge b).2.isSome = true ↔
      ((∀ t, t ∈ a.descriptor_types → t ∉ b.descriptor_types) ∨
       (∃ u v, a.image_format = some u ∧ b.image_format = some v ∧ u ≠ v) ∨
       (∃ u v, a.image_scalar_type = some u ∧ b.image_scalar_type = some v ∧
         u ≠ v) ∨
       (∃ u v, a.image_view_type = some u ∧ b.image_view_type = some v ∧
         u ≠ v) ∨
       a.image_multisampled ≠ b.image_multisampled) := by
  unfold DescriptorBindingRequirements.merge
  split_ifs with h1 h2 h3 h4 h5 <;>
    simp_all [any_contains_iff, conflictingOptions_true_iff]
  exact ⟨h2, h3, h4⟩

/-- Claim C2: `DescriptorBindingRequirements::merge` returns an error exactly
when one of the five conflict conditions holds (the descriptor-type sets share
no common type; both image formats are specified and differ; both image scalar
types are specified and differ; both image view types are specified and
differ; the multisampled flags differ), and on error `self` is left completely
unchanged — no partial merge is applied. -/
theorem C2_merge_error_conditions (a b : DescriptorBindingRequirements) :
    ((a.merge b).2.isSome = true ↔
      ((∀ t, t ∈ a.descriptor_types → t ∉ b.descriptor_types) ∨
       (∃ u v, a.image_format = some u ∧ b.image_format = some v ∧ u ≠ v) ∨
       (∃ u v, a.image_scalar_type = some u ∧ b.image_scalar_type = some v ∧
         u ≠ v) ∨
       (∃ u v, a.image_view_type = some u ∧ b.image_view_type = some v ∧
         u ≠ v) ∨
       a.image_multisampled ≠ b.image_multisampled)) ∧
    ((a.merge b).2.isSome = true → (a.merge b).1 = a) :=
  ⟨merge_isSome_iff a b, merge_self_unchanged a b⟩

attribute [ext] DescriptorRequirements DescriptorBindingRequirements

/-- Extract the five check outcomes from a successful merge. -/
theorem checks_of_merge_none (a b : DescriptorBindingRequirements)
    (h : (a.merge b).2 = none) :
    (a.descriptor_types.any fun ty => b.descriptor_types.contains ty) = true ∧
    conflictingOptions a.image_format b.image_format = false ∧
    conflictingOptions a.image_scalar_type b.image_scalar_type = false ∧
    conflictingOptions a.image_view_type b.image_view_type = false ∧
    a.image_multisampled = b.image_multisampled := by
  unfold DescriptorBindingRequirements.merge at h
  split_ifs at h with h1 h2 h3 h4 h5 <;> simp_all

/-- A merge whose five checks all pass succeeds. -/
theorem merge_none_of_checks (a b : DescriptorBindingRequirements)
    (h1 : (a.descriptor_types.any fun ty => b.descriptor_types.contains ty) = true)
    (h2 : conflictingOptions a.image_format b.image_format = false)
    (h3 : conflictingOptions a.image_scalar_type b.image_scalar_type = false)
    (h4 : conflictingOptions a.image_view_type b.image_view_type = false)
    (h5 : a.image_multisampled = b.image_multisampled) :
    (a.merge b).2 = none := by
  unfold DescriptorBindingRequirements.merge
  split_ifs with g1 g2 g3 g4 g5 <;> simp_all

/-- The value computed by a successful merge, as a literal. -/
theorem merge_eq_of_none (a b : DescriptorBindingRequirements)
    (h : (a.merge b).2 = none) :
    a.merge b =
      ({ descriptor_types :=
           a.descriptor_types.filter fun ty => b.descriptor_types.contains ty
         descriptor_count := optMax a.descriptor_count b.descriptor_count
         image_format := optOr a.image_format b.image_format
         image_multisampled := a.image_multisampled
         image_scalar_type := optOr a.image_scalar_type b.image_scalar_type
         image_view_type := optOr a.image_view_type b.image_view_type
         stages := a.stages ||| b.stages
         descriptors := fun k =>
           mergeDescriptorsEntry (a.descriptors k) (b.descriptors k) },
       none) := by
  unfold DescriptorBindingRequirements.merge at h ⊢
  split_ifs at h ⊢ <;> simp_all

theorem conflictingOptions_comm {α : Type} [DecidableEq α] (x y : Option α) :
    conflictingOptions x y = conflictingOptions y x := by
  cases x <;> cases y <;> simp [conflictingOptions, ne_comm]

theorem optMax_comm (x y : Option Nat) : optMax x y = optMax y x := by
  cases x <;> cases y <;> simp [optMax, Nat.max_comm]

theorem optMax_assoc (x y z : Option Nat) :
    optMax (optMax x y) z = optMax x (optMax y z) := by
  cases x <;> cases y <;> cases z <;> simp [optMax, Nat.max_assoc]

theorem optOr_assoc {α : Type} (x y z : Option α) :
    optOr (optOr x y) z = optOr x (optOr y z) := by
  cases x <;> cases y <;> cases z <;> simp [optOr]

theorem optOr_comm_of_compat {α : Type} [DecidableEq α] (x y : Option α)
    (h : conflictingOptions x y = false) : optOr x y = optOr y x := by
  cases x <;> cases y <;> simp_all [conflictingOptions, optOr]

theorem conflicting_optOr_right {α : Type} [DecidableEq α] (x y z : Option α)
    (hxy : conflictingOptions x y = false)
    (hxyz : conflictingOptions (optOr x y) z = false) :
    conflictingOptions x (optOr y z) = false := by
  cases x <;> cases y <;> cases z <;> simp_all [conflictingOptions, optOr]

theorem DescriptorRequirements_merge_comm (x y : DescriptorRequirements) :
    x.merge y = y.merge x := by
  unfold DescriptorRequirements.merge
  ext <;>
    simp [Nat.lor_comm, Bool.or_comm]

theorem DescriptorRequirements_merge_assoc (x y z : DescriptorRequirements) :
    (x.merge y).merge z = x.merge (y.merge z) := by
  unfold DescriptorRequirements.merge
  ext <;>
    simp [Nat.lor_assoc, Bool.or_assoc]

theorem mergeDescriptorsEntry_comm (x y : Option DescriptorRequirements) :
    mergeDescriptorsEntry x y = mergeDescriptorsEntry y x := by
  cases x <;> cases y <;>
    simp [mergeDescriptorsEntry, DescriptorRequirements_merge_comm]

theorem mergeDescriptorsEntry_assoc (x y z : Option DescriptorRequirements) :
    mergeDescriptorsEntry (mergeDescriptorsEntry x y) z =
      mergeDescriptorsEntry x (mergeDescriptorsEntry y z) := by
  cases x <;> cases y <;> cases z <;>
    simp [mergeDescriptorsEntry, DescriptorRequirements_merge_assoc]

theorem filter_contains_assoc (A B C : List DescriptorType) :
    ((A.filter fun t => B.contains t).filter fun t => C.contains t) =
      A.filter fun t => ((B.filter fun u => C.contains u).contains t) := by
  rw [List.filter_filter]
  apply List.filter_congr
  intro t _
  by_cases hB : t ∈ B <;> by_cases hC : t ∈ C <;>
    simp [hB, hC, List.elem_eq_mem, List.mem_filter]

/-- Claim C2 witness: merging disjoint type sets ({UniformBuffer} vs
{StorageImage}) errors and leaves `self` unchanged. -/
theorem C2_witness : (dbrU.merge dbrS).1 = dbrU :=
  (C2_merge_error_conditions dbrU dbrS).2 rfl

/-- Claim C4: when the merge succeeds, the result is computed field-by-field:
descriptor types are the intersection of the two type sets, the descriptor
count is the maximum of the two counts with a concrete bound preserved over
`none`, the image format / scalar type / view type are whichever side
specifies them, the stages are the union, and each entry of the `descriptors`
map is union-merged, with `DescriptorRequirements::merge` or-ing the stage
bitsets and boolean flags and unioning the sampler-with-images set. -/
theorem C4_merge_success_fields (a b r : DescriptorBindingRequirements)
    (h : a.merge b = (r, none)) :
    (∀ t, t ∈ r.descriptor_types ↔
      t ∈ a.descriptor_types ∧ t ∈ b.descriptor_types) ∧
    (∀ x y, a.descriptor_count = some x → b.descriptor_count = some y →
      r.descriptor_count = some (max x y)) ∧
    (a.descriptor_count = none → r.descriptor_count = b.descriptor_count) ∧
    (b.descriptor_count = none → r.descriptor_count = a.descriptor_count) ∧
    (∀ u, a.image_format = some u → r.image_format = some u) ∧
    (a.image_format = none → r.image_format = b.image_format) ∧
    (∀ u, a.image_scalar_type = some u → r.image_scalar_type = some u) ∧
    (a.image_scalar_type = none → r.image_scalar_type = b.image_scalar_type) ∧
    (∀ u, a.image_view_type = some u → r.image_view_type = some u) ∧
    (a.image_view_type = none → r.image_view_type = b.image_view_type) ∧
    r.stages = a.stages ||| b.stages ∧
    (∀ k, a.descriptors k = none → r.descriptors k = b.descriptors k) ∧
    (∀ k d, a.descriptors k = some d → b.descriptors k = none →
      r.descriptors k = some d) ∧
    (∀ k d e, a.descriptors k = some d → b.descriptors k = some e →
      r.descriptors k = some (d.merge e)) ∧
    (∀ x y : DescriptorRequirements,
      (x.merge y).memory_read = x.memory_read ||| y.memory_read ∧
      (x.merge y).memory_write = x.memory_write ||| y.memory_write ∧
      (x.merge y).sampler_compare = (x.sampler_compare || y.sampler_compare) ∧
      (x.merge y).sampler_no_unnormalized_coordinates =
        (x.sampler_no_unnormalized_coordinates ||
          y.sampler_no_unnormalized_coordinates) ∧
      (x.merge y).sampler_no_ycbcr_conversion =
        (x.sampler_no_ycbcr_conversion || y.sampler_no_ycbcr_conversion) ∧
      (∀ i, (x.merge y).sampler_with_images i =
        (x.sampler_with_images i || y.sampler_with_images i)) ∧
      (x.merge y).storage_image_atomic =
        (x.storage_image_atomic || y.storage_image_atomic)) := by
  have hnone : (a.merge b).2 = none := by rw [h]
  have hlit := merge_eq_of_none a b hnone
  rw [h] at hlit
  have hr : r = _ := congrArg Prod.fst hlit
  subst hr
  refine ⟨?_, ?_, ?_, ?_, ?_, ?_, ?_, ?_, ?_, ?_, rfl, ?_, ?_, ?_, ?_⟩
  · intro t
    simp [List.mem_filter, List.elem_eq_mem]
  · intro x y hx hy; simp [hx, hy, optMax]
  · intro hx; simp [hx, optMax]
  · intro hy; cases hax : a.descriptor_count <;> simp [hax, hy, optMax]
  · intro u hu; simp [hu, optOr]
  · intro hu; simp [hu, optOr]
  · intro u hu; simp [hu, optOr]
  · intro hu; simp [hu, optOr]
  · intro u hu; simp [hu, optOr]
  · intro hu; simp [hu, optOr]
  · intro k hk; simp [hk, mergeDescriptorsEntry]
  · intro k d hk hk2; simp [hk, hk2, mergeDescriptorsEntry]
  · intro k d e hk hk2; simp [hk, hk2, mergeDescriptorsEntry]
  · intro x y
    exact ⟨rfl, rfl, rfl, rfl, rfl, fun i => rfl, rfl⟩

/-- Claim C4 witness: a successful self-merge of the uniform-buffer
requirement has the intersection as its type set. -/
theorem C4_witness :
    DescriptorType.UniformBuffer ∈ ((dbrU.merge dbrU).1).descriptor_types ↔
      DescriptorType.UniformBuffer ∈ dbrU.descriptor_types ∧
        DescriptorType.UniformBuffer ∈ dbrU.descriptor_types :=
  (C4_merge_success_fields dbrU dbrU (dbrU.merge dbrU).1 rfl).1
    DescriptorType.UniformBuffer

/-- Symmetry of the descriptor-type overlap check. -/
theorem any_contains_symm (A B : List DescriptorType)
    (h : (A.any fun ty => B.contains ty) = true) :
    (B.any fun ty => A.contains ty) = true := by
  obtain ⟨t, ha, hb⟩ := (any_contains_iff A B).mp h
  exact (any_contains_iff B A).mpr ⟨t, hb, ha⟩

/-- The overlap check of a left-nested merge implies the overlap check of the
right-nested merge. -/
theorem any_filter_contains (A B C : List DescriptorType)
    (h : ((A.filter fun t => B.contains t).any fun t => C.contains t) = true) :
    (A.any fun t => ((B.filter fun u => C.contains u).contains t)) = true := by
  rw [List.any_eq_true] at h ⊢
  obtain ⟨t, htf, htc⟩ := h
  rw [List.mem_filter] at htf
  refine ⟨t, htf.1, ?_⟩
  simp only [List.elem_eq_mem, decide_eq_true_eq, List.mem_filter] at htf htc ⊢
  exact ⟨htf.2, htc⟩

/-- Claim C6 counterexample: merging is not commutative when every field is
compared as a value. The two sides below have the same allowed-type set
{UniformBuffer, StorageBuffer} listed in opposite orders; both merges succeed
(so the claim's no-pairwise-conflict hypothesis holds), yet the merged
`descriptor_types` vectors differ, because `Vec::retain` keeps `self`'s
element order: merge(A,B) yields [UniformBuffer, StorageBuffer] while
merge(B,A) yields [StorageBuffer, UniformBuffer]. -/
theorem C6_counterexample :
    (dbrAB.merge dbrBA).2 = none ∧ (dbrBA.merge dbrAB).2 = none ∧
    (dbrAB.merge dbrBA).1 ≠ (dbrBA.merge dbrAB).1 := by
  refine ⟨rfl, rfl, fun h => ?_⟩
  have h2 : (dbrAB.merge dbrBA).1.descriptor_types =
      (dbrBA.merge dbrAB).1.descriptor_types := congrArg _ h
  rw [show (dbrAB.merge dbrBA).1.descriptor_types =
      [DescriptorType.UniformBuffer, DescriptorType.StorageBuffer] from rfl,
    show (dbrBA.merge dbrAB).1.descriptor_types =
      [DescriptorType.StorageBuffer, DescriptorType.UniformBuffer] from rfl]
    at h2
  exact absurd h2 (by decide)

/-- Claim C6 (amended): for requirements with no pairwise merge conflicts,
(a) merging is commutative up to comparing the `descriptor_types` field as a
set (same members; the `Vec` order follows `self`) with every other field
equal as a value, and (b) whenever the left-nested double merge also succeeds,
merging is associative with every field (the type list included) equal as a
value, and the right-nested double merge succeeds as well. -/
theorem C6_amended_merge_comm_assoc (A B C : DescriptorBindingRequirements)
    (hAB : (A.merge B).2 = none) (hBC : (B.merge C).2 = none)
    (hAC : (A.merge C).2 = none) :
    ((B.merge A).2 = none ∧
     (∀ t, t ∈ (A.merge B).1.descriptor_types ↔
        t ∈ (B.merge A).1.descriptor_types) ∧
     (A.merge B).1.descriptor_count = (B.merge A).1.descriptor_count ∧
     (A.merge B).1.image_format = (B.merge A).1.image_format ∧
     (A.merge B).1.image_multisampled = (B.merge A).1.image_multisampled ∧
     (A.merge B).1.image_scalar_type = (B.merge A).1.image_scalar_type ∧
     (A.merge B).1.image_view_type = (B.merge A).1.image_view_type ∧
     (A.merge B).1.stages = (B.merge A).1.stages ∧
     (A.merge B).1.descriptors = (B.merge A).1.descriptors) ∧
    (((A.merge B).1.merge C).2 = none →
      ((A.merge (B.merge C).1).2 = none ∧
       ((A.merge B).1.merge C).1 = (A.merge (B.merge C).1).1)) := by
  obtain ⟨t1, f1, s1, v1, m1⟩ := checks_of_merge_none A B hAB
  obtain ⟨t2, f2, s2, v2, m2⟩ := checks_of_merge_none B C hBC
  constructor
  · have hBA : (B.merge A).2 = none :=
      merge_none_of_checks B A (any_contains_symm _ _ t1)
        (by rw [conflictingOptions_comm]; exact f1)
        (by rw [conflictingOptions_comm]; exact s1)
        (by rw [conflictingOptions_comm]; exact v1)
        m1.symm
    rw [merge_eq_of_none A B hAB, merge_eq_of_none B A hBA]
    dsimp only
    refine ⟨rfl, ?_, ?_, ?_, ?_, ?_, ?_, ?_, ?_⟩
    · intro t
      simp only [List.mem_filter, List.elem_eq_mem, decide_eq_true_eq]
      exact and_comm
    · exact optMax_comm _ _
    · exact optOr_comm_of_compat _ _ f1
    · exact m1
    · exact optOr_comm_of_compat _ _ s1
    · exact optOr_comm_of_compat _ _ v1
    · exact Nat.lor_comm _ _
    · funext k
      exact mergeDescriptorsEntry_comm _ _
  · intro hL
    rw [merge_eq_of_none A B hAB] at hL
    dsimp only at hL
    obtain ⟨tL, fL, sL, vL, mL⟩ := checks_of_merge_none _ C hL
    dsimp only at tL fL sL vL mL
    have hR : (A.merge (B.merge C).1).2 = none := by
      rw [merge_eq_of_none B C hBC]
      dsimp only
      exact merge_none_of_checks A _
        (any_filter_contains _ _ _ tL)
        (conflicting_optOr_right _ _ _ f1 fL)
        (conflicting_optOr_right _ _ _ s1 sL)
        (conflicting_optOr_right _ _ _ v1 vL)
        m1
    refine ⟨hR, ?_⟩
    rw [merge_eq_of_none B C hBC] at hR
    dsimp only at hR
    rw [merge_eq_of_none A B hAB, merge_eq_of_none B C hBC]
    dsimp only
    rw [merge_eq_of_none _ C hL, merge_eq_of_none A _ hR]
    dsimp only
    ext : 1 <;> dsimp only
    · rw [filter_contains_assoc]
    · rw [optMax_assoc]
    · rw [optOr_assoc]
    · rw [optOr_assoc]
    · rw [optOr_assoc]
    · rw [Nat.lor_assoc]
    · funext k
      rw [mergeDescriptorsEntry_assoc]

/-- Claim C6 witness: the amended commutativity and associativity applied to
the self-merge of the uniform-buffer requirement. -/
theorem C6_witness : (dbrU.merge dbrU).2 = none :=
  (C6_amended_merge_comm_assoc dbrU dbrU dbrU rfl rfl rfl).1.1

/-! ## Specialization claims -/

/-- Claim C1 counterexample: the base module `sm5` declares one specialization
constant, and the specialization_info `[]` is empty — the claim requires the
derived graph to be absent (shared base graph, no copy), but
`new_unchecked` produces a present (cloned) `spirv` field, because the code
keys the clone on the module's constant table being non-empty, not on the
overrides being effective. -/
theorem C1_counterexample :
    ((SpecializedShaderModule.new_unchecked sm5 []).spirv).isSome = true := rfl

/-- Claim C1 (amended): the derived graph (the `spirv` field) is absent if and
only if the base module's specialization-constant table is empty, for every
specialization_info — in particular, a non-empty table forces a clone even
when specialization_info is empty or names no constant of the module; and
when the table is empty the specialized module's effective graph is the base
module's graph itself. -/
theorem C1_amended_spirv_presence (base : ShaderModule)
    (info : List (Nat × SpecializationConstant)) :
    ((SpecializedShaderModule.new_unchecked base info).spirv = none ↔
      base.specialization_constants.isEmpty = true) ∧
    (base.specialization_constants.isEmpty = true →
      (SpecializedShaderModule.new_unchecked base info).getSpirv =
        base.spirv) := by
  constructor
  · by_cases h : base.specialization_constants.isEmpty = true <;>
      simp [SpecializedShaderModule.new_unchecked, h]
  · intro h
    simp [SpecializedShaderModule.new_unchecked,
      SpecializedShaderModule.getSpirv, h]

/-- Claim C1 witness: with an empty constant table the specialized module
shares the base graph. -/
theorem C1_witness :
    (SpecializedShaderModule.new_unchecked smEmpty []).getSpirv =
      smEmpty.spirv :=
  (C1_amended_spirv_presence smEmpty []).2 rfl

/-- The loop of `validate_new` succeeds exactly when every provided entry
whose constant_id has a default in the table type-matches that default. -/
theorem validateSpecializationInfo_ok_iff
    (defaults info : List (Nat × SpecializationConstant)) :
    validateSpecializationInfo defaults info = Except.ok () ↔
      ∀ p ∈ info, ∀ d, List.lookup p.1 defaults = some d →
        p.2.eq_type d = true := by
  induction info with
  | nil => simp [validateSpecializationInfo]
  | cons hd tl ih =>
    obtain ⟨cid, v⟩ := hd
    simp only [validateSpecializationInfo, List.forall_mem_cons]
    cases hl : List.lookup cid defaults with
    | none => simp [hl, ih]
    | some d0 =>
      by_cases hty : v.eq_type d0 = true
      · simp [hl, hty, ih]
      · dsimp only
        rw [if_neg hty]
        constructor
        · intro h; cases h
        · intro h; exact absurd (h.1 d0 rfl) hty

/-- Claim C10: validation type-checks only entries whose constant_id exists in
the module's table — an entry naming an unknown constant_id never causes an
error, and validation succeeds exactly when every matching constant_id has a
type-matching value. -/
theorem C10_validate_new_ok_iff (base : ShaderModule)
    (info : List (Nat × SpecializationConstant)) :
    SpecializedShaderModule.validate_new base info = Except.ok () ↔
      ∀ p ∈ info, ∀ d,
        List.lookup p.1 base.specialization_constants = some d →
          p.2.eq_type d = true :=
  validateSpecializationInfo_ok_iff base.specialization_constants info

/-- Claim C10 witness: an entry with constant_id 7 (absent from the table,
whose only constant is id 5) and a value of a different variant than anything
declared does not fail validation, while a type-matching entry for id 5
passes. -/
theorem C10_witness :
    SpecializedShaderModule.validate_new sm5
      [(5, .U32 7), (7, .I64 1)] = Except.ok () :=
  (C10_validate_new_ok_iff sm5 [(5, .U32 7), (7, .I64 1)]).mpr (by
    intro p hp d hd
    simp only [List.mem_cons] at hp
    rcases hp with rfl | rfl | hp
    · dsimp only at hd
      rw [show List.lookup 5 sm5.specialization_constants =
          some (SpecializationConstant.U32 3) from rfl, Option.some.injEq] at hd
      subst hd
      rfl
    · dsimp only at hd
      rw [show List.lookup 7 sm5.specialization_constants =
          (none : Option SpecializationConstant) from rfl] at hd
      cases hd
    · cases hp)

/-- Claim C3: if some constant_id present both in the module's table and in
specialization_info has an override whose variant differs from the declared
default's variant, `SpecializedShaderModule::new` returns a validation error —
before any rewriting: validation runs first and construction is never reached,
and in this pure embedding the base module value is untouched by either. -/
theorem C3_new_rejects_type_mismatch (base : ShaderModule)
    (info : List (Nat × SpecializationConstant))
    (h : ∃ cid v d, (cid, v) ∈ info ∧
         List.lookup cid base.specialization_constants = some d ∧
         v.eq_type d = false) :
    ∃ e, SpecializedShaderModule.new base info = Except.error e := by
  obtain ⟨cid, v, d, hmem, hlook, hty⟩ := h
  cases hval : SpecializedShaderModule.validate_new base info with
  | error e => exact ⟨e, by simp [SpecializedShaderModule.new, hval]⟩
  | ok u =>
    cases u
    have hcontr :=
      (validateSpecializationInfo_ok_iff base.specialization_constants info).mp
        hval (cid, v) hmem d hlook
    rw [hty] at hcontr
    cases hcontr

/-- Claim C3 witness: overriding the `U32` constant 5 of `sm5` with an `I64`
value fails. -/
theorem C3_witness :
    ∃ e, SpecializedShaderModule.new sm5 [(5, .I64 1)] = Except.error e :=
  C3_new_rejects_type_mismatch sm5 [(5, .I64 1)]
    ⟨5, .I64 1, .U32 3, by decide, rfl, rfl⟩

/-! ## Entry-point lookup -/

/-- Filtering an enumerated list on the payload keeps as many elements as
`countP` counts. -/
theorem length_filter_enumFrom_entry (p : EntryPointInfo → Bool) :
    ∀ (n : Nat) (l : List (Nat × EntryPointInfo)),
      ((List.enumFrom n l).filter fun x => p x.2.2).length =
        l.countP fun x => p x.2 := by
  intro n l
  induction l generalizing n with
  | nil => rfl
  | cons a l ih =>
    rw [List.enumFrom, List.countP_cons, List.filter_cons]
    by_cases h : p a.2
    · simp [h, ih]
    · simp [h, ih]

/-- `single_entry_point_filter` finds an entry point exactly when exactly one
cached entry point satisfies the filter. -/
theorem single_entry_point_filter_isSome_iff (m : SpecializedShaderModule)
    (p : EntryPointInfo → Bool) :
    (m.single_entry_point_filter p).isSome = true ↔
      m.entry_point_infos.countP (fun x => p x.2) = 1 := by
  rw [← length_filter_enumFrom_entry p 0 m.entry_point_infos]
  unfold SpecializedShaderModule.single_entry_point_filter
  rw [show m.entry_point_infos.enum = List.enumFrom 0 m.entry_point_infos
    from rfl]
  rcases hf : (List.enumFrom 0 m.entry_point_infos).filter
      (fun x => p x.2.2) with _ | ⟨⟨i, eid, info⟩, _ | ⟨y, tl⟩⟩ <;>
    simp [hf]

/-- Claim C7: every entry-point query (by name, by name and execution model,
the single-entry-point query, and the single-entry-point-by-execution query)
returns `Some` exactly when exactly one cached entry point satisfies its
filter; two or more matches yield `None` exactly like zero matches — there is
no distinct ambiguity error. -/
theorem C7_entry_point_queries_exactly_one (m : SpecializedShaderModule)
    (name : String) (execution : ExecutionModel) :
    ((m.entry_point name).isSome = true ↔
       m.entry_point_infos.countP (fun x => x.2.name == name) = 1) ∧
    ((m.entry_point_with_execution name execution).isSome = true ↔
       m.entry_point_infos.countP
         (fun x => x.2.name == name && x.2.execution_model == execution) = 1) ∧
    ((m.single_entry_point).isSome = true ↔
       m.entry_point_infos.countP (fun _ => true) = 1) ∧
    ((m.single_entry_point_with_execution execution).isSome = true ↔
       m.entry_point_infos.countP
         (fun x => x.2.execution_model == execution) = 1) :=
  ⟨single_entry_point_filter_isSome_iff m _,
   single_entry_point_filter_isSome_iff m _,
   single_entry_point_filter_isSome_iff m _,
   single_entry_point_filter_isSome_iff m _⟩

/-- Claim C7 witness: the module with exactly one cached entry point named
`main` finds it by name. -/
theorem C7_witness : (ssmMain.entry_point "main").isSome = true :=
  (C7_entry_point_queries_exactly_one ssmMain "main" .Vertex).1.mpr rfl

/-! ## Interface matching: totality under the non-64-bit precondition -/

theorem num_locations_of_not64 (t : ShaderInterfaceEntryType)
    (h : t.is_64bit = false) : t.num_locations = some t.num_elements := by
  simp [ShaderInterfaceEntryType.num_locations, h]

theorem num_locations_eq_some (t : ShaderInterfaceEntryType) (n : Nat)
    (h : t.num_locations = some n) :
    t.is_64bit = false ∧ n = t.num_elements := by
  by_cases h64 : t.is_64bit <;>
    simp_all [ShaderInterfaceEntryType.num_locations]

theorem findCoveringElement_total (loc : Nat)
    (l : List ShaderInterfaceEntry)
    (h : ∀ e ∈ l, e.ty.is_64bit = false) :
    ∃ r, findCoveringElement loc l = some r := by
  induction l with
  | nil => exact ⟨none, rfl⟩
  | cons e rest ih =>
    rw [findCoveringElement,
      num_locations_of_not64 e.ty (h e (List.mem_cons_self e rest))]
    dsimp only
    by_cases hc : e.location ≤ loc ∧ loc < e.location + e.ty.num_elements
    · rw [if_pos hc]; exact ⟨some e, rfl⟩
    · rw [if_neg hc]
      exact ih fun x hx => h x (List.mem_cons_of_mem e hx)

theorem findCoveringElement_some_some (loc : Nat)
    (l : List ShaderInterfaceEntry) (b : ShaderInterfaceEntry)
    (h : findCoveringElement loc l = some (some b)) :
    b ∈ l ∧ occupiesSlot b loc = true := by
  induction l with
  | nil => simp [findCoveringElement] at h
  | cons e rest ih =>
    rw [findCoveringElement] at h
    cases hn : e.ty.num_locations with
    | none => rw [hn] at h; cases h
    | some n =>
      rw [hn] at h
      dsimp only at h
      by_cases hc : e.location ≤ loc ∧ loc < e.location + n
      · rw [if_pos hc] at h
        obtain rfl : e = b := by
          injection h with h2; injection h2
        obtain ⟨-, hne⟩ := num_locations_eq_some e.ty n hn
        subst hne
        refine ⟨List.mem_cons_self e rest, ?_⟩
        simp [occupiesSlot, hc.1, hc.2]
      · rw [if_neg hc] at h
        obtain ⟨hm, ho⟩ := ih h
        exact ⟨List.mem_cons_of_mem e hm, ho⟩

theorem findCoveringElement_some_none (loc : Nat)
    (l : List ShaderInterfaceEntry)
    (h : findCoveringElement loc l = some none) :
    ∀ b ∈ l, occupiesSlot b loc = false := by
  induction l with
  | nil => intro b hb; cases hb
  | cons e rest ih =>
    rw [findCoveringElement] at h
    cases hn : e.ty.num_locations with
    | none => rw [hn] at h; cases h
    | some n =>
      rw [hn] at h
      dsimp only at h
      by_cases hc : e.location ≤ loc ∧ loc < e.location + n
      · rw [if_pos hc] at h; cases h
      · rw [if_neg hc] at h
        intro b hb
        rcases List.mem_cons.mp hb with rfl | hb2
        · obtain ⟨-, hne⟩ := num_locations_eq_some b.ty n hn
          subst hne
          by_cases h1 : b.location ≤ loc
          · have h2 : ¬ loc < b.location + b.ty.num_elements :=
              fun h2 => hc ⟨h1, h2⟩
            simp [occupiesSlot, h2]
          · simp [occupiesSlot, h1]
        · exact ih h b hb2

theorem checkSlot_total (other : List ShaderInterfaceEntry)
    (aty : ShaderInterfaceEntryType) (loc : Nat)
    (h64 : ∀ e ∈ other, e.ty.is_64bit = false) :
    ∃ z, checkSlot other aty loc = some z := by
  obtain ⟨r, hr⟩ := findCoveringElement_total loc other h64
  unfold checkSlot
  rw [hr]
  cases r with
  | none => exact ⟨.error (.missingElement loc), rfl⟩
  | some b =>
    dsimp only
    by_cases hty : aty = b.ty
    · rw [if_pos hty]; exact ⟨.ok (), rfl⟩
    · rw [if_neg hty]; exact ⟨.error (.typeMismatch loc), rfl⟩

theorem checkSlot_ok_iff (other : List ShaderInterfaceEntry)
    (aty : ShaderInterfaceEntryType) (loc : Nat)
    (h64 : ∀ e ∈ other, e.ty.is_64bit = false)
    (huniq : ∀ b1 ∈ other, ∀ b2 ∈ other, occupiesSlot b1 loc = true →
      occupiesSlot b2 loc = true → b1 = b2) :
    checkSlot other aty loc = some (.ok ()) ↔
      ∃ b ∈ other, occupiesSlot b loc = true ∧ aty = b.ty := by
  obtain ⟨r, hr⟩ := findCoveringElement_total loc other h64
  unfold checkSlot
  rw [hr]
  cases r with
  | none =>
    dsimp only
    constructor
    · intro h; simp at h
    · rintro ⟨b, hb, ho, -⟩
      have := findCoveringElement_some_none loc other hr b hb
      rw [ho] at this
      cases this
  | some b =>
    dsimp only
    obtain ⟨hmem, hocc⟩ := findCoveringElement_some_some loc other b hr
    by_cases hty : aty = b.ty
    · rw [if_pos hty]
      exact iff_of_true rfl ⟨b, hmem, hocc, hty⟩
    · rw [if_neg hty]
      constructor
      · intro h; simp at h
      · rintro ⟨b2, hb2, ho2, hty2⟩
        have heq : b2 = b := huniq b2 hb2 b hmem ho2 hocc
        subst heq
        exact absurd hty2 hty

theorem checkSlots_total (other : List ShaderInterfaceEntry)
    (aty : ShaderInterfaceEntryType)
    (h64 : ∀ e ∈ other, e.ty.is_64bit = false) :
    ∀ (n start : Nat), ∃ z, checkSlots other aty start n = some z := by
  intro n
  induction n with
  | zero => exact fun start => ⟨.ok (), rfl⟩
  | succ k ih =>
    intro start
    obtain ⟨z, hz⟩ := checkSlot_total other aty start h64
    rw [checkSlots, hz]
    cases z with
    | error e => exact ⟨.error e, rfl⟩
    | ok u => cases u; exact ih (start + 1)

theorem checkSlots_ok_iff (other : List ShaderInterfaceEntry)
    (aty : ShaderInterfaceEntryType)
    (h64 : ∀ e ∈ other, e.ty.is_64bit = false)
    (huniq : ∀ loc : Nat, ∀ b1 ∈ other, ∀ b2 ∈ other,
      occupiesSlot b1 loc = true → occupiesSlot b2 loc = true → b1 = b2) :
    ∀ (n start : Nat),
      (checkSlots other aty start n = some (.ok ()) ↔
        ∀ i < n, ∃ b ∈ other, occupiesSlot b (start + i) = true ∧
          aty = b.ty) := by
  intro n
  induction n with
  | zero => intro start; simp [checkSlots]
  | succ k ih =>
    intro start
    obtain ⟨z, hz⟩ := checkSlot_total other aty start h64
    rw [checkSlots, hz]
    cases z with
    | error e =>
      dsimp only
      constructor
      · intro h; simp at h
      · intro hall
        obtain ⟨b, hb, ho, hty⟩ := hall 0 (Nat.succ_pos k)
        rw [Nat.add_zero] at ho
        have hok : checkSlot other aty start = some (.ok ()) :=
          (checkSlot_ok_iff other aty start h64 (huniq start)).mpr
            ⟨b, hb, ho, hty⟩
        rw [hz] at hok
        cases hok
    | ok u =>
      cases u
      dsimp only
      rw [ih (start + 1)]
      constructor
      · intro hall i hi
        cases i with
        | zero =>
          rw [Nat.add_zero]
          exact (checkSlot_ok_iff other aty start h64 (huniq start)).mp hz
        | succ j =>
          have hj : j < k := by omega
          obtain ⟨b, hb, ho, hty⟩ := hall j hj
          refine ⟨b, hb, ?_, hty⟩
          rw [show start + (j + 1) = start + 1 + j by omega]
          exact ho
      · intro hall i hi
        obtain ⟨b, hb, ho, hty⟩ := hall (i + 1) (by omega)
        refine ⟨b, hb, ?_, hty⟩
        rw [show start + 1 + i = start + (i + 1) by omega]
        exact ho

theorem checkElement_total (other : List ShaderInterfaceEntry)
    (a : ShaderInterfaceEntry)
    (h64 : ∀ e ∈ other, e.ty.is_64bit = false)
    (ha : a.ty.is_64bit = false) :
    ∃ z, checkElement other a = some z := by
  unfold checkElement
  rw [num_locations_of_not64 a.ty ha]
  exact checkSlots_total other a.ty h64 a.ty.num_elements a.location

theorem checkElement_ok_iff (other : List ShaderInterfaceEntry)
    (a : ShaderInterfaceEntry)
    (h64 : ∀ e ∈ other, e.ty.is_64bit = false)
    (huniq : ∀ loc : Nat, ∀ b1 ∈ other, ∀ b2 ∈ other,
      occupiesSlot b1 loc = true → occupiesSlot b2 loc = true → b1 = b2)
    (ha : a.ty.is_64bit = false) :
    checkElement other a = some (.ok ()) ↔
      ∀ i < a.ty.num_elements, ∃ b ∈ other,
        occupiesSlot b (a.location + i) = true ∧ a.ty = b.ty := by
  unfold checkElement
  rw [num_locations_of_not64 a.ty ha]
  exact checkSlots_ok_iff other a.ty h64 huniq a.ty.num_elements a.location

theorem checkElements_total (other : List ShaderInterfaceEntry)
    (h64 : ∀ e ∈ other, e.ty.is_64bit = false) :
    ∀ (l : List ShaderInterfaceEntry),
      (∀ a ∈ l, a.ty.is_64bit = false) →
      ∃ z, checkElements other l = some z := by
  intro l
  induction l with
  | nil => exact fun _ => ⟨.ok (), rfl⟩
  | cons a rest ih =>
    intro hl
    obtain ⟨z, hz⟩ :=
      checkElement_total other a h64 (hl a (List.mem_cons_self a rest))
    rw [checkElements, hz]
    cases z with
    | error e => exact ⟨.error e, rfl⟩
    | ok u =>
      cases u
      exact ih fun x hx => hl x (List.mem_cons_of_mem a hx)

theorem checkElements_ok_iff (other : List ShaderInterfaceEntry)
    (h64 : ∀ e ∈ other, e.ty.is_64bit = false)
    (huniq : ∀ loc : Nat, ∀ b1 ∈ other, ∀ b2 ∈ other,
      occupiesSlot b1 loc = true → occupiesSlot b2 loc = true → b1 = b2) :
    ∀ (l : List ShaderInterfaceEntry),
      (∀ a ∈ l, a.ty.is_64bit = false) →
      (checkElements other l = some (.ok ()) ↔
        ∀ a ∈ l, ∀ i < a.ty.num_elements, ∃ b ∈ other,
          occupiesSlot b (a.location + i) = true ∧ a.ty = b.ty) := by
  intro l
  induction l with
  | nil => intro _; simp [checkElements]
  | cons a rest ih =>
    intro hl
    have ha : a.ty.is_64bit = false := hl a (List.mem_cons_self a rest)
    have hrest : ∀ x ∈ rest, x.ty.is_64bit = false :=
      fun x hx => hl x (List.mem_cons_of_mem a hx)
    obtain ⟨z, hz⟩ := checkElement_total other a h64 ha
    rw [checkElements, hz, List.forall_mem_cons]
    cases z with
    | error e =>
      dsimp only
      constructor
      · intro h; simp at h
      · intro hall
        have hok := (checkElement_ok_iff other a h64 huniq ha).mpr hall.1
        rw [hz] at hok
        cases hok
    | ok u =>
      cases u
      dsimp only
      rw [ih hrest]
      constructor
      · intro h
        exact ⟨(checkElement_ok_iff other a h64 huniq ha).mp hz, h⟩
      · intro h
        exact h.2

/-- Claim C5: `ShaderInterface::matches` returns Ok exactly when the element
counts are equal and every location slot `[location, location+num_elements)`
of every upstream element is occupied by a downstream element of equal type.
The hypotheses are the data-model invariants of `ShaderInterface` (stated as
the safety contract of its sole constructor): no 64-bit entries (asserted
against in `num_locations`), and at most one downstream entry occupying any
location. -/
theorem C5_matches_ok_iff (a b : ShaderInterface)
    (ha64 : ∀ e ∈ a.elements, e.ty.is_64bit = false)
    (hb64 : ∀ e ∈ b.elements, e.ty.is_64bit = false)
    (huniq : ∀ loc : Nat, ∀ e1 ∈ b.elements, ∀ e2 ∈ b.elements,
      occupiesSlot e1 loc = true → occupiesSlot e2 loc = true → e1 = e2) :
    a.matches b = some (Except.ok ()) ↔
      (a.elements.length = b.elements.length ∧
       ∀ x ∈ a.elements, ∀ i < x.ty.num_elements,
         ∃ y ∈ b.elements, occupiesSlot y (x.location + i) = true ∧
           x.ty = y.ty) := by
  unfold ShaderInterface.matches
  by_cases hlen : a.elements.length = b.elements.length
  · rw [if_neg (not_not_intro hlen)]
    rw [checkElements_ok_iff b.elements hb64 huniq a.elements ha64]
    simp [hlen]
  · rw [if_pos hlen]
    constructor
    · intro h; simp at h
    · rintro ⟨h, -⟩; exact absurd h hlen

/-- Claim C5 witness: a single `vec4 float32` output at location 0 matches the
identical single-entry input interface. -/
theorem C5_witness :
    ShaderInterface.matches ifaceV4 ifaceV4 = some (Except.ok ()) :=
  (C5_matches_ok_iff ifaceV4 ifaceV4 (by decide) (by decide) (by
      intro loc e1 h1 e2 h2 _ _
      simp only [ifaceV4, List.mem_singleton] at h1 h2
      rw [h1, h2])).mpr (by decide)

/-- Claim C9: when every entry of both interfaces has `is_64bit = false`,
`ShaderInterface::matches` completes without panicking (its result is
present); and any 64-bit entry type makes the `num_locations` assertion fail
(modelled as `none`), so the panic branch is unreachable under the
precondition. -/
theorem C9_matches_no_panic (a b : ShaderInterface)
    (ha64 : ∀ e ∈ a.elements, e.ty.is_64bit = false)
    (hb64 : ∀ e ∈ b.elements, e.ty.is_64bit = false) :
    (a.matches b).isSome = true ∧
    (∀ t : ShaderInterfaceEntryType, t.is_64bit = true →
      t.num_locations = none) := by
  constructor
  · unfold ShaderInterface.matches
    by_cases hlen : a.elements.length ≠ b.elements.length
    · rw [if_pos hlen]; rfl
    · rw [if_neg hlen]
      obtain ⟨z, hz⟩ := checkElements_total b.elements hb64 a.elements ha64
      rw [hz]; rfl
  · intro t ht
    simp [ShaderInterfaceEntryType.num_locations, ht]

/-- Claim C9 witness: the single-entry 32-bit interfaces match without a
panic, and the 64-bit type `tyD1` trips the assertion. -/
theorem C9_witness :
    (ifaceV4.matches ifaceV4).isSome = true ∧ tyD1.num_locations = none :=
  ⟨(C9_matches_no_panic ifaceV4 ifaceV4 (by decide) (by decide)).1,
   (C9_matches_no_panic ifaceV4 ifaceV4 (by decide) (by decide)).2 tyD1 rfl⟩

/-! ## Interface matching is independent of entry names -/

theorem findCoveringElement_rel (loc : Nat) :
    ∀ {l l' : List ShaderInterfaceEntry}, List.Forall₂ eqExceptName l l' →
      Option.Rel (Option.Rel eqExceptName)
        (findCoveringElement loc l) (findCoveringElement loc l') := by
  intro l l' h
  induction h with
  | nil => exact .some .none
  | @cons e e' rest rest' he ht ih =>
    rw [findCoveringElement, findCoveringElement]
    obtain ⟨hloc, hidx, hcomp, hty⟩ := he
    rw [← hty, ← hloc]
    cases hn : e.ty.num_locations with
    | none => exact .none
    | some n =>
      dsimp only
      by_cases hc : e.location ≤ loc ∧ loc < e.location + n
      · rw [if_pos hc, if_pos hc]
        exact .some (.some ⟨hloc, hidx, hcomp, hty⟩)
      · rw [if_neg hc, if_neg hc]
        exact ih

theorem checkSlot_congr {l l' : List ShaderInterfaceEntry}
    (h : List.Forall₂ eqExceptName l l')
    (aty : ShaderInterfaceEntryType) (loc : Nat) :
    checkSlot l aty loc = checkSlot l' aty loc := by
  have hrel := findCoveringElement_rel loc h
  unfold checkSlot
  cases hx : findCoveringElement loc l with
  | none =>
    cases hx' : findCoveringElement loc l' with
    | none => rfl
    | some r' => rw [hx, hx'] at hrel; cases hrel
  | some r =>
    cases hx' : findCoveringElement loc l' with
    | none => rw [hx, hx'] at hrel; cases hrel
    | some r' =>
      rw [hx, hx'] at hrel
      cases hrel with
      | some hinner =>
        cases hinner with
        | none => rfl
        | some hbb =>
          dsimp only
          rw [hbb.2.2.2]

theorem checkSlots_congr {l l' : List ShaderInterfaceEntry}
    (h : List.Forall₂ eqExceptName l l') (aty : ShaderInterfaceEntryType) :
    ∀ (n start : Nat), checkSlots l aty start n = checkSlots l' aty start n := by
  intro n
  induction n with
  | zero => intro _; rfl
  | succ k ih =>
    intro start
    rw [checkSlots, checkSlots, checkSlot_congr h aty start]
    cases checkSlot l' aty start with
    | none => rfl
    | some z =>
      cases z with
      | error e => rfl
      | ok u => cases u; dsimp only; exact ih (start + 1)

theorem checkElement_congr {l l' : List ShaderInterfaceEntry}
    (h : List.Forall₂ eqExceptName l l') {a a' : ShaderInterfaceEntry}
    (ha : eqExceptName a a') :
    checkElement l a = checkElement l' a' := by
  unfold checkElement
  rw [← ha.2.2.2, ← ha.1]
  cases hn : a.ty.num_locations with
  | none => rfl
  | some n => dsimp only; exact checkSlots_congr h a.ty n a.location

theorem checkElements_congr {lo lo' : List ShaderInterfaceEntry}
    (ho : List.Forall₂ eqExceptName lo lo') :
    ∀ {l l' : List ShaderInterfaceEntry},
      List.Forall₂ eqExceptName l l' →
      checkElements lo l = checkElements lo' l' := by
  intro l l' h
  induction h with
  | nil => rfl
  | @cons a a' rest rest' ha ht ih =>
    rw [checkElements, checkElements, checkElement_congr ho ha]
    cases checkElement lo' a' with
    | none => rfl
    | some z =>
      cases z with
      | error e => rfl
      | ok u => cases u; dsimp only; exact ih

/-- Claim C8: the result of `ShaderInterface::matches` is independent of the
entry names — for entrywise identical interfaces up to the `name` fields, the
outcome is the same; names are never compared. -/
theorem C8_matches_ignores_names (a a' b b' : ShaderInterface)
    (h1 : List.Forall₂ eqExceptName a.elements a'.elements)
    (h2 : List.Forall₂ eqExceptName b.elements b'.elements) :
    a.matches b = a'.matches b' := by
  unfold ShaderInterface.matches
  rw [h1.length_eq, h2.length_eq]
  by_cases h : a'.elements.length ≠ b'.elements.length
  · rw [if_pos h, if_pos h]
  · rw [if_neg h, if_neg h]
    exact checkElements_congr h2 h1

/-- Claim C8 witness: replacing the entry name `pos` by no name on both sides
leaves the match outcome unchanged. -/
theorem C8_witness :
    ShaderInterface.matches ifaceV4 ifaceV4 =
      ShaderInterface.matches ifaceV4NoName ifaceV4NoName :=
  C8_matches_ignores_names ifaceV4 ifaceV4NoName ifaceV4 ifaceV4NoName
    (List.Forall₂.cons ⟨rfl, rfl, rfl, rfl⟩ List.Forall₂.nil)
    (List.Forall₂.cons ⟨rfl, rfl, rfl, rfl⟩ List.Forall₂.nil)
